import Mathlib

namespace Rosterbot

/-- A calendar date, day/month/year, as carried by `datetime` / `pd.Timestamp`
values in `stmlapp.py`.  Validity is not enforced structurally; `isValidDate`
below captures the range checks the Python `datetime` constructor performs. -/
structure Date where
  day : Nat
  month : Nat
  year : Nat
deriving DecidableEq, Repr

/-- Chronological strict order on dates (pandas `Timestamp` comparison). -/
def dateLT (a b : Date) : Bool :=
  decide (a.year < b.year ∨ (a.year = b.year ∧
    (a.month < b.month ∨ (a.month = b.month ∧ a.day < b.day))))

/-- Chronological order on dates (pandas `Timestamp` `<=` / `>=`). -/
def dateLE (a b : Date) : Bool :=
  decide (a.year < b.year ∨ (a.year = b.year ∧
    (a.month < b.month ∨ (a.month = b.month ∧ a.day ≤ b.day))))

/-- Gregorian leap-year test, as `datetime` uses. -/
def isLeap (y : Nat) : Bool :=
  y % 4 == 0 && (y % 100 != 0 || y % 400 == 0)

/-- Days in a month, as `datetime` uses. -/
def daysInMonth (m y : Nat) : Nat :=
  if m == 2 then (if isLeap y then 29 else 28)
  else if m == 4 || m == 6 || m == 9 || m == 11 then 30
  else 31

/-- The range checks of the Python `datetime(year, month, day)` constructor:
it raises `ValueError` outside these bounds. -/
def isValidDate (d : Date) : Bool :=
  1 ≤ d.year && d.year ≤ 9999 && 1 ≤ d.month && d.month ≤ 12 &&
  1 ≤ d.day && d.day ≤ daysInMonth d.month d.year

/-! ### Decimal digits: model of Python decimal formatting and parsing -/

/-- Digit extraction with explicit fuel (structural recursion, so that the
kernel can evaluate it on concrete inputs).  `fuel ≥ n` suffices. -/
def natDigitsAux : Nat → Nat → List Nat
  | 0, n => [n % 10]
  | fuel + 1, n =>
    if n < 10 then [n] else natDigitsAux fuel (n / 10) ++ [n % 10]

/-- Decimal digits of `n`, most significant first (Python `str(n)` /
`strftime` with no zero padding). -/
def natDigits (n : Nat) : List Nat := natDigitsAux n n

/-- Value of a most-significant-first digit list (decimal parsing). -/
def parseDigits (ds : List Nat) : Nat :=
  ds.foldl (fun a d => a * 10 + d) 0

/-- The ASCII digit character for a digit value (Python decimal rendering). -/
def digitChar : Nat → Char
  | 0 => '0' | 1 => '1' | 2 => '2' | 3 => '3' | 4 => '4'
  | 5 => '5' | 6 => '6' | 7 => '7' | 8 => '8' | 9 => '9'
  | _ => '?'

/-- Numeric value of an ASCII digit character. -/
def charVal (c : Char) : Nat := c.toNat - 48

/-- Characters of `n` in decimal (Python `str(n)`). -/
def natChars (n : Nat) : List Char := (natDigits n).map digitChar

/-- Python `str(n)` for a natural number. -/
def natToStr (n : Nat) : String := String.mk (natChars n)

/-- Characters of `n` zero-padded to two digits (`strftime` `%d` / `%m`). -/
def pad2Chars (n : Nat) : List Char :=
  if n < 10 then '0' :: natChars n else natChars n

/-- `n` zero-padded to two digits, as a string. -/
def pad2 (n : Nat) : String := String.mk (pad2Chars n)

/-! ### Calendar rendering (`strftime` pieces used by `stmlapp.py`) -/

/-- Full English month names, in order (regex alternation order in
`extract_date`, and `strftime` `%B`). -/
def monthNames : List String :=
  ["January", "February", "March", "April", "May", "June", "July",
   "August", "September", "October", "November", "December"]

/-- `strftime` `%B`: full month name of month number `m`. -/
def monthName (m : Nat) : String := monthNames.getD (m - 1) ""

/-- Day-of-week names indexed by Zeller value (0 = Saturday). -/
def weekdayNames : List String :=
  ["Saturday", "Sunday", "Monday", "Tuesday", "Wednesday", "Thursday",
   "Friday"]

/-- Zeller congruence for the Gregorian day of week. -/
def zeller (d : Date) : Nat :=
  let m := if d.month ≤ 2 then d.month + 12 else d.month
  let y := if d.month ≤ 2 then d.year - 1 else d.year
  let k := y % 100
  let j := y / 100
  (d.day + (13 * (m + 1)) / 5 + k + k / 4 + j / 4 + 5 * j) % 7

/-- `strftime` `%A`: full weekday name. -/
def weekdayName (d : Date) : String := weekdayNames.getD (zeller d) ""

/-- `strftime("%A, %d %B %Y")`, the long date format every handler message
uses. -/
def fmtLong (d : Date) : String :=
  weekdayName d ++ ", " ++ pad2 d.day ++ " " ++ monthName d.month ++ " " ++
    natToStr d.year

/-- Character-level `strftime("%d/%m/%Y")`, the format `extract_date`
returns. -/
def fmtDMYChars (d : Date) : List Char :=
  pad2Chars d.day ++ '/' :: (pad2Chars d.month ++ '/' :: natChars d.year)

/-- `strftime("%d/%m/%Y")` as a string. -/
def fmtDMY (d : Date) : String := String.mk (fmtDMYChars d)

/-! ### Roster data model -/

/-- The four shift slots (`shift_columns` in `stmlapp.py`). -/
inductive Slot where
  | day
  | night
  | dayOnCall
  | nightOnCall
deriving DecidableEq, Repr

/-- Column header of a slot, as in the source. -/
def slotName : Slot → String
  | .day => "Day"
  | .night => "Night"
  | .dayOnCall => "Day on call"
  | .nightOnCall => "Night on call"

/-- `shift_columns = ["Day", "Night", "Day on call", "Night on call"]`. -/
def shift_columns : List Slot := [.day, .night, .dayOnCall, .nightOnCall]

/-- One roster row after load: `Date` parsed with
`pd.to_datetime(..., errors="coerce")` (`none` models `NaT`), and the four
slot cells normalized by `.astype(str).str.replace("\n", " ").str.strip()`,
so every cell is a plain string. -/
structure Row where
  date : Option Date
  dayCell : String
  nightCell : String
  dayOnCallCell : String
  nightOnCallCell : String
deriving DecidableEq, Repr

/-- Cell of a row in a given slot column. -/
def getSlot (r : Row) : Slot → String
  | .day => r.dayCell
  | .night => r.nightCell
  | .dayOnCall => r.dayOnCallCell
  | .nightOnCall => r.nightOnCallCell

/-- `WIFE_NAME = "Karunya Subramaniyan"`. -/
def WIFE_NAME : String := "Karunya Subramaniyan"

/-! ### Substring containment (pandas `.str.contains` with a literal
pattern: `WIFE_NAME` has no regex metacharacters, so it is plain substring
search) -/

/-- `needle` matches at the head of `hay`, character-exact. -/
def leadEq : List Char → List Char → Bool
  | [], _ => true
  | _ :: _, [] => false
  | a :: as, b :: bs => a == b && leadEq as bs

/-- `needle` occurs somewhere in `hay`. -/
def hasSubAux (needle : List Char) : List Char → Bool
  | [] => leadEq needle []
  | c :: cs => leadEq needle (c :: cs) || hasSubAux needle cs

/-- `pandas.Series.str.contains(needle)` on one cell: substring test. -/
def strHasSub (needle hay : String) : Bool := hasSubAux needle.data hay.data

/-! ### `extract_date` (lines 53-69 of `stmlapp.py`)

The primary `dateparser.parse(question, settings={'DATE_ORDER': 'DMY'})`
call is a third-party heuristic; it is modelled as an oracle argument
`primary : Option Date` holding the datetime it returns (`none` = parse
failure).  The regex fallback is modelled character by character. -/

/-- Leftmost match of `re.search(r'(\d{1,2})(?:st|nd|rd|th)?', q)`: the
first run of digits, truncated greedily to at most two digits. -/
def findDayAux : List Char → Option Nat
  | [] => none
  | c :: cs =>
    if c.isDigit then
      match cs with
      | c2 :: _ =>
        if c2.isDigit then some (charVal c * 10 + charVal c2)
        else some (charVal c)
      | [] => some (charVal c)
    else findDayAux cs

/-- Day-number search of the `extract_date` fallback. -/
def findDayNum (q : String) : Option Nat := findDayAux q.data

/-- `needle` matches at the head of `hay` up to ASCII case
(`re.IGNORECASE`). -/
def ciLead : List Char → List Char → Bool
  | [], _ => true
  | _ :: _, [] => false
  | a :: as, b :: bs => (a.toLower == b.toLower) && ciLead as bs

/-- Try each month name, in regex alternation order, at the head of `cs`;
return its 1-based month number. -/
def monthAt : List String → Nat → List Char → Option Nat
  | [], _, _ => none
  | nm :: rest, i, cs =>
    if ciLead nm.data cs then some i else monthAt rest (i + 1) cs

/-- Leftmost case-insensitive match of a full month name
(`re.search(r'(January|...|December)', q, re.IGNORECASE)`), converted to a
month number as `datetime.strptime(.., "%B").month` does. -/
def findMonthAux : List Char → Option Nat
  | [] => none
  | c :: cs =>
    match monthAt monthNames 1 (c :: cs) with
    | some m => some m
    | none => findMonthAux cs

/-- Month-name search of the `extract_date` fallback. -/
def findMonthNum (q : String) : Option Nat := findMonthAux q.data

/-- `extract_date(question)`.  `primary` is the `dateparser.parse` oracle;
`today` is `datetime.today()`.  Returns `Except` because
`datetime(year, month, day)` raises `ValueError` for an out-of-range
day/month combination, and that exception escapes `extract_date`. -/
def extract_date (primary : Option Date) (question : String) (today : Date) :
    Except String (Option String) :=
  match primary with
  | some d => .ok (some (fmtDMY d))
  | none =>
    match findDayNum question with
    | none => .ok none
    | some day =>
      let month := (findMonthNum question).getD today.month
      let d : Date := ⟨day, month, today.year⟩
      if isValidDate d then .ok (some (fmtDMY d))
      else .error "day is out of range for month"

/-! ### `pd.to_datetime(s, format="%d/%m/%Y", errors="coerce")`

Modelled as splitting on `/` with 1-2 digit day and month fields and a
decimal year field, then the `datetime` range checks; any failure yields
`none` (`NaT`), as `errors="coerce"` does. -/

/-- Split a character list on `/` (field structure of the fixed
`%d/%m/%Y` format). -/
def splitSlash : List Char → List (List Char)
  | [] => [[]]
  | c :: rest =>
    if c == '/' then [] :: splitSlash rest
    else
      match splitSlash rest with
      | h :: t => (c :: h) :: t
      | [] => [[c]]

/-- Parse one all-digit field of bounded width. -/
def parseField (maxLen : Nat) (cs : List Char) : Option Nat :=
  if cs.isEmpty then none
  else if cs.length ≤ maxLen && cs.all Char.isDigit then
    some (parseDigits (cs.map charVal))
  else none

/-- Parse the all-digit year field; its width is not constrained, matching
the decimal rendering on the formatting side. -/
def parseFieldY (cs : List Char) : Option Nat :=
  if cs.isEmpty then none
  else if cs.all Char.isDigit then some (parseDigits (cs.map charVal))
  else none

/-- The pandas `Timestamp` range at whole-day resolution: `Timestamp.min`
is 1677-09-21 00:12:43, so the first fully representable midnight is
1677-09-22; `Timestamp.max` is 2262-04-11 23:47:16, so the last is
2262-04-11.  `pd.to_datetime(..., errors="coerce")` coerces any date
outside this range to `NaT`, even when it is a perfectly good `datetime`
date. -/
def inTimestampBounds (d : Date) : Bool :=
  dateLE ⟨22, 9, 1677⟩ d && dateLE d ⟨11, 4, 2262⟩

/-- `pd.to_datetime(s, format="%d/%m/%Y", errors="coerce")`: `none` is
`NaT`.  A calendar-valid but out-of-`Timestamp`-range date also coerces to
`NaT`. -/
def parse_dmy (s : String) : Option Date :=
  match splitSlash s.data with
  | [ds, ms, ys] =>
    match parseField 2 ds, parseField 2 ms, parseFieldY ys with
    | some d, some m, some y =>
      if isValidDate ⟨d, m, y⟩ && inTimestampBounds ⟨d, m, y⟩ then
        some ⟨d, m, y⟩
      else none
    | _, _, _ => none
  | _ => none

/-! ### Query handlers (lines 72-117 of `stmlapp.py`) -/

/-- Join strings with a separator (Python `sep.join(xs)`). -/
def joinSep (sep : String) : List String → String
  | [] => ""
  | [x] => x
  | x :: xs => x ++ sep ++ joinSep sep xs

/-- The row-filter of `get_next_shift`: for a named slot,
`roster_df[shift_type].str.contains(WIFE_NAME, na=False)` — substring
containment; with no slot, `WIFE_NAME in row.values` — exact equality on
some slot. -/
def slotPred (shift_type : Option Slot) (r : Row) : Bool :=
  match shift_type with
  | some s => strHasSub WIFE_NAME (getSlot r s)
  | none => shift_columns.any (fun c => getSlot r c == WIFE_NAME)

/-- `future_shifts`: rows with `Date >= today` passing `slotPred`, paired
with their (non-`NaT`) dates. -/
def futureShifts (shift_type : Option Slot) (roster : List Row)
    (today : Date) : List (Date × Row) :=
  roster.filterMap (fun r =>
    match r.date with
    | some d =>
      if dateLE today d && slotPred shift_type r then some (d, r) else none
    | none => none)

/-- One step of minimum selection by date (keeps the earlier element;
on a tie keeps the current one, like a stable ascending sort). -/
def minStep (b y : Date × Row) : Date × Row :=
  if dateLT y.1 b.1 then y else b

/-- `future_shifts.sort_values("Date").iloc[0]`: the first row of minimal
date, or `none` when the frame is empty. -/
def minByDate : List (Date × Row) → Option (Date × Row)
  | [] => none
  | x :: xs => some (xs.foldl minStep x)

/-- `[col for col in shift_columns if row[col] == WIFE_NAME]` (used by
both `get_next_shift` and `get_my_shift_on_date`). -/
def matchingSlots (r : Row) : List Slot :=
  shift_columns.filter (fun c => getSlot r c == WIFE_NAME)

/-- The "no upcoming" message of `get_next_shift`. -/
def noUpcomingMsg (shift_type : Option Slot) : String :=
  "Hey Karunya! 🌸 No upcoming " ++
    (match shift_type with | some s => slotName s | none => "shifts") ++
    " found. Enjoy your time off! 🎉"

/-- The success message of `get_next_shift` for the selected row. -/
def nextShiftMsg (shift_type : Option Slot) (d : Date) (r : Row) : String :=
  "Hey Karunya! 😊 Your next **" ++
    (match shift_type with
     | some s => slotName s
     | none => joinSep ", " ((matchingSlots r).map slotName)) ++
    "** shift is on **" ++ fmtLong d ++
    "**. Take care and have a great day! 💙"

/-- `get_next_shift(shift_type=None)` (lines 72-93). -/
def get_next_shift (shift_type : Option Slot) (roster : List Row)
    (today : Date) : String :=
  match minByDate (futureShifts shift_type roster today) with
  | none => noUpcomingMsg shift_type
  | some (d, r) => nextShiftMsg shift_type d r

/-- `roster_df[roster_df["Date"] == query_date]` followed by `.iloc[0]`:
first row whose date equals `d` (`NaT` never compares equal). -/
def findRowByDate (roster : List Row) (d : Date) : Option Row :=
  roster.find? (fun r =>
    match r.date with
    | some d0 => d0 == d
    | none => false)

/-- The `str(e)` text of `pd.NaT.strftime(...)`, raised when the extracted
date was `None`/unparseable. -/
def natStrftimeErr : String := "NaTType does not support strftime"

/-- Empty-frame message of `get_my_shift_on_date` (line 100). -/
def myShiftNoRowMsg (f : String) : String :=
  "Hey Karunya! 😊 You have **no shifts** on **" ++ f ++
    "**. Enjoy your day off! 🎉"

/-- No-matching-slot message of `get_my_shift_on_date` (line 104). -/
def myShiftOffMsg (f : String) : String :=
  "Hey Karunya! 😊 You have **no shifts** on **" ++ f ++
    "**. Enjoy your time off! 🎉"

/-- Working message of `get_my_shift_on_date` (line 106). -/
def myShiftWorkMsg (f shifts : String) : String :=
  "Hey Karunya! 😊 On **" ++ f ++ "**, you are working **" ++ shifts ++
    "**. Take care! 💙"

/-- `get_my_shift_on_date(date_query)` (lines 95-106).  Raises (returns
`.error`) exactly where the Python raises: `query_date.strftime` on
`NaT`. -/
def get_my_shift_on_date (date_query : Option String) (roster : List Row) :
    Except String String :=
  let query_date := date_query.bind parse_dmy
  let shift_row :=
    match query_date with
    | some q => findRowByDate roster q
    | none => none
  match shift_row, query_date with
  | none, none => .error natStrftimeErr
  | none, some q => .ok (myShiftNoRowMsg (fmtLong q))
  | some _, none => .error natStrftimeErr
  | some r, some q =>
    let shifts := matchingSlots r
    if shifts.isEmpty then .ok (myShiftOffMsg (fmtLong q))
    else .ok (myShiftWorkMsg (fmtLong q) (joinSep ", " (shifts.map slotName)))

/-- `pd.notna` applied to a slot cell.  After load every cell is a string
(`.astype(str)`), and `pd.notna` is `True` on every string — including the
empty string — so this guard never rejects a cell. -/
def pdNotNaStr (_ : String) : Bool := true

/-- `{col: row[col] for col in shift_columns if pd.notna(row[col])}` of
`get_colleagues_on_date` (line 115). -/
def colleaguePairs (r : Row) : List (Slot × String) :=
  shift_columns.filterMap (fun c =>
    if pdNotNaStr (getSlot r c) then some (c, getSlot r c) else none)

/-- One `"  - {shift}: {name}"` line of the colleague listing. -/
def pairLine (p : Slot × String) : String :=
  "  - " ++ slotName p.1 ++ ": " ++ p.2

/-- Empty-frame message of `get_colleagues_on_date` (line 113). -/
def colleaguesNoRowMsg (f : String) : String :=
  "No shifts found on " ++ f ++ "."

/-- Schedule message of `get_colleagues_on_date` (line 117). -/
def colleaguesMsg (f details : String) : String :=
  "Here’s the shift schedule for **" ++ f ++ "**:\n\n" ++ details ++
    "\n\nHope this helps! 😊"

/-- `get_colleagues_on_date(date_query)` (lines 108-117). -/
def get_colleagues_on_date (date_query : Option String)
    (roster : List Row) : Except String String :=
  let query_date := date_query.bind parse_dmy
  let shift_row :=
    match query_date with
    | some q => findRowByDate roster q
    | none => none
  match shift_row, query_date with
  | none, none => .error natStrftimeErr
  | none, some q => .ok (colleaguesNoRowMsg (fmtLong q))
  | some _, none => .error natStrftimeErr
  | some r, some q =>
    .ok (colleaguesMsg (fmtLong q)
      (joinSep "\n" ((colleaguePairs r).map pairLine)))

/-! ### Dispatcher: `ask_question` (lines 120-145)

`classify_question` is an external generative-service call; its returned
label is the oracle argument `category`.  `primary` is the
`dateparser.parse` oracle of `extract_date`.  The `try`/`except` wraps
only the handler invocation; classification and date extraction run
outside it. -/

/-- The seven keys of `category_map`. -/
def categoryKeys : List String :=
  ["next_shift", "next_day_shift", "next_night_shift", "next_day_on_call",
   "next_night_on_call", "my_shift_on_date", "colleagues_on_date"]

/-- `category_map[category]()`: `some` when the label has a handler,
carrying the handler's outcome (`.error` = the handler raised). -/
def runHandler (category : String) (date_query : Option String)
    (roster : List Row) (today : Date) : Option (Except String String) :=
  if category == "next_shift" then
    some (.ok (get_next_shift none roster today))
  else if category == "next_day_shift" then
    some (.ok (get_next_shift (some .day) roster today))
  else if category == "next_night_shift" then
    some (.ok (get_next_shift (some .night) roster today))
  else if category == "next_day_on_call" then
    some (.ok (get_next_shift (some .dayOnCall) roster today))
  else if category == "next_night_on_call" then
    some (.ok (get_next_shift (some .nightOnCall) roster today))
  else if category == "my_shift_on_date" then
    some (get_my_shift_on_date date_query roster)
  else if category == "colleagues_on_date" then
    some (get_colleagues_on_date date_query roster)
  else none

/-- The generic `except` message of `ask_question` (line 141), embedding
`str(e)`. -/
def oopsMsg (e : String) : String :=
  "Oops! Something went wrong while processing your request. 😅 " ++
    "Please try again later. Error: " ++ e

/-- The fixed clarification message of `ask_question` (lines 144-145). -/
def clarificationMsg : String :=
  "Hmm, I didn\u0027t quite catch that. 🤔 Could you rephrase your question? " ++
    "For example, you can ask: \u0027When is my next shift?\u0027 or " ++
    "\u0027Who is working on 10/10/2023?\u0027"

/-- `ask_question(question)`.  A `.error` result models an exception
propagating out of `ask_question` (only date extraction can do so; the
handler call is guarded by `try`/`except`). -/
def ask_question (category : String) (primary : Option Date)
    (question : String) (today : Date) (roster : List Row) :
    Except String String :=
  match extract_date primary question today with
  | .error e => .error e
  | .ok date_query =>
    match runHandler category date_query roster today with
    | none => .ok clarificationMsg
    | some (.ok s) => .ok s
    | some (.error e) => .ok (oopsMsg e)

/-- Decidable equality of handler outcomes, so concrete runs can be
checked by evaluation. -/
instance exceptDecEq {A B : Type} [DecidableEq A] [DecidableEq B] :
    DecidableEq (Except A B) := fun a b =>
  match a, b with
  | .ok x, .ok y =>
    if h : x = y then isTrue (by rw [h]) else isFalse (by simp [h])
  | .error x, .error y =>
    if h : x = y then isTrue (by rw [h]) else isFalse (by simp [h])
  | .ok _, .error _ => isFalse (by simp)
  | .error _, .ok _ => isFalse (by simp)

/-! ### Process state (for the read-only-roster frame property)

`roster_df` is a module-level global.  The handlers and `ask_question`
only ever read it; modelled by threading an explicit state value through
each operation, exactly as the statements of the source do (no statement
assigns to `roster_df` or to any of its rows or cells after load). -/

/-- The module-level mutable state of `stmlapp.py` after load: just the
roster table. -/
structure AppState where
  roster : List Row
deriving Repr

/-- `get_next_shift` reading `roster_df` from the process state; the state
it leaves behind is the one it was given, since the function body contains
no assignment to `roster_df`. -/
def get_next_shift_st (shift_type : Option Slot) (today : Date)
    (st : AppState) : String × AppState :=
  (get_next_shift shift_type st.roster today, st)

/-- `get_my_shift_on_date` reading `roster_df` from the process state. -/
def get_my_shift_on_date_st (date_query : Option String) (st : AppState) :
    Except String String × AppState :=
  (get_my_shift_on_date date_query st.roster, st)

/-- `get_colleagues_on_date` reading `roster_df` from the process state. -/
def get_colleagues_on_date_st (date_query : Option String) (st : AppState) :
    Except String String × AppState :=
  (get_colleagues_on_date date_query st.roster, st)

/-- `ask_question` reading `roster_df` from the process state. -/
def ask_question_st (category : String) (primary : Option Date)
    (question : String) (today : Date) (st : AppState) :
    Except String String × AppState :=
  (ask_question category primary question today st.roster, st)

/-! ### Helper lemmas: date order and decimal digits -/

theorem dateLT_iff (a b : Date) : dateLT a b = true ↔
    (a.year < b.year ∨ (a.year = b.year ∧
      (a.month < b.month ∨ (a.month = b.month ∧ a.day < b.day)))) := by
  simp [dateLT]

theorem dateLE_iff (a b : Date) : dateLE a b = true ↔
    (a.year < b.year ∨ (a.year = b.year ∧
      (a.month < b.month ∨ (a.month = b.month ∧ a.day ≤ b.day)))) := by
  simp [dateLE]

theorem dateLE_refl (a : Date) : dateLE a a = true := by
  rw [dateLE_iff]; omega

theorem dateLE_trans {a b c : Date} (h1 : dateLE a b = true)
    (h2 : dateLE b c = true) : dateLE a c = true := by
  rw [dateLE_iff] at *; omega

theorem dateLT_le {a b : Date} (h : dateLT a b = true) : dateLE a b = true := by
  rw [dateLT_iff] at h; rw [dateLE_iff]; omega

theorem dateLT_false_le {a b : Date} (h : dateLT a b = false) :
    dateLE b a = true := by
  have h' : ¬ dateLT a b = true := by simp [h]
  rw [dateLT_iff] at h'; rw [dateLE_iff]; omega

theorem natDigitsAux_irrel :
    ∀ f f' n, n ≤ f → n ≤ f' → natDigitsAux f n = natDigitsAux f' n := by
  intro f
  induction f with
  | zero =>
    intro f' n h h'
    have : n = 0 := by omega
    subst this
    cases f' with
    | zero => rfl
    | succ g => simp [natDigitsAux]
  | succ g ih =>
    intro f' n h h'
    cases f' with
    | zero =>
      have : n = 0 := by omega
      subst this
      simp [natDigitsAux]
    | succ g' =>
      show (if n < 10 then [n] else natDigitsAux g (n / 10) ++ [n % 10]) =
        (if n < 10 then [n] else natDigitsAux g' (n / 10) ++ [n % 10])
      split
      · rfl
      · rename_i hn
        rw [ih g' (n / 10) (by omega) (by omega)]

theorem natDigits_eq (n : Nat) :
    natDigits n = if n < 10 then [n] else natDigits (n / 10) ++ [n % 10] := by
  unfold natDigits
  cases n with
  | zero => simp [natDigitsAux]
  | succ m =>
    show (if m + 1 < 10 then [m + 1]
      else natDigitsAux m ((m + 1) / 10) ++ [(m + 1) % 10]) = _
    split
    · rfl
    · rename_i hm
      rw [natDigitsAux_irrel m ((m + 1) / 10) ((m + 1) / 10) (by omega)
        (Nat.le_refl _)]

theorem natDigits_lt (n : Nat) : ∀ x ∈ natDigits n, x < 10 := by
  induction n using Nat.strong_induction_on with
  | _ n ih =>
    rw [natDigits_eq]
    split
    · intro x hx; simp only [List.mem_singleton] at hx; omega
    · intro x hx
      simp only [List.mem_append, List.mem_singleton] at hx
      rcases hx with h | h
      · exact ih (n / 10) (Nat.div_lt_self (by omega) (by omega)) x h
      · subst h; exact Nat.mod_lt _ (by omega)

theorem natDigits_ne_nil (n : Nat) : natDigits n ≠ [] := by
  rw [natDigits_eq]
  split
  · simp
  · simp

theorem parseDigits_natDigits (n : Nat) : parseDigits (natDigits n) = n := by
  induction n using Nat.strong_induction_on with
  | _ n ih =>
    rw [natDigits_eq]
    split
    · simp [parseDigits]
    · have h1 := ih (n / 10) (Nat.div_lt_self (by omega) (by omega))
      simp only [parseDigits, List.foldl_append, List.foldl_cons,
        List.foldl_nil] at h1 ⊢
      rw [h1]
      omega

theorem natDigits_len_le2 {n : Nat} (h : n < 100) :
    (natDigits n).length ≤ 2 := by
  rw [natDigits_eq]
  split
  · simp
  · have hd : n / 10 < 10 := by omega
    rw [List.length_append, natDigits_eq, if_pos hd]
    simp

theorem charVal_digitChar {d : Nat} (h : d < 10) :
    charVal (digitChar d) = d := by
  interval_cases d <;> decide

theorem isDigit_digitChar {d : Nat} (h : d < 10) :
    (digitChar d).isDigit = true := by
  interval_cases d <;> decide

theorem digitChar_ne_slash {d : Nat} (h : d < 10) : digitChar d ≠ '/' := by
  interval_cases d <;> decide

/-! ### Helper lemmas: minimum selection -/

theorem foldl_minStep_choice (xs : List (Date × Row)) (x : Date × Row) :
    xs.foldl minStep x = x ∨ xs.foldl minStep x ∈ xs := by
  induction xs generalizing x with
  | nil => exact Or.inl rfl
  | cons z zs ih =>
    rw [List.foldl_cons]
    rcases ih (minStep x z) with h | h
    · rw [h]
      unfold minStep
      split
      · exact Or.inr (by simp)
      · exact Or.inl rfl
    · exact Or.inr (by simp [h])

theorem minStep_le_left (x z : Date × Row) :
    dateLE (minStep x z).1 x.1 = true := by
  unfold minStep
  split
  · exact dateLT_le (by assumption)
  · exact dateLE_refl _

theorem minStep_le_right (x z : Date × Row) :
    dateLE (minStep x z).1 z.1 = true := by
  unfold minStep
  split
  · exact dateLE_refl _
  · rename_i h
    exact dateLT_false_le (by simpa using h)

theorem foldl_minStep_le (xs : List (Date × Row)) (x : Date × Row) :
    dateLE (xs.foldl minStep x).1 x.1 = true ∧
    ∀ y ∈ xs, dateLE (xs.foldl minStep x).1 y.1 = true := by
  induction xs generalizing x with
  | nil => exact ⟨dateLE_refl _, by simp⟩
  | cons z zs ih =>
    rw [List.foldl_cons]
    obtain ⟨h1, h2⟩ := ih (minStep x z)
    refine ⟨dateLE_trans h1 (minStep_le_left x z), ?_⟩
    intro y hy
    rcases List.mem_cons.mp hy with h | h
    · rw [h]
      exact dateLE_trans h1 (minStep_le_right x z)
    · exact h2 y h

theorem minByDate_none_iff (l : List (Date × Row)) :
    minByDate l = none ↔ l = [] := by
  cases l <;> simp [minByDate]

theorem minByDate_spec {l : List (Date × Row)} {x : Date × Row}
    (h : minByDate l = some x) :
    x ∈ l ∧ ∀ y ∈ l, dateLE x.1 y.1 = true := by
  cases l with
  | nil => simp [minByDate] at h
  | cons a as =>
    simp only [minByDate, Option.some.injEq] at h
    subst h
    obtain ⟨h1, h2⟩ := foldl_minStep_le as a
    constructor
    · rcases foldl_minStep_choice as a with h | h
      · rw [h]; simp
      · simp [h]
    · intro y hy
      rcases List.mem_cons.mp hy with h | h
      · rw [h]; exact h1
      · exact h2 y h

/-! ### Helper lemmas: the future-shift filter -/

theorem mem_futureShifts {shift_type : Option Slot} {roster : List Row}
    {today : Date} {p : Date × Row} :
    p ∈ futureShifts shift_type roster today ↔
    (p.2 ∈ roster ∧ p.2.date = some p.1 ∧ dateLE today p.1 = true ∧
     slotPred shift_type p.2 = true) := by
  unfold futureShifts
  rw [List.mem_filterMap]
  constructor
  · rintro ⟨a, ha, hf⟩
    rcases hd : a.date with _ | d
    · rw [hd] at hf; simp at hf
    · rw [hd] at hf
      dsimp only at hf
      by_cases hcond : (dateLE today d && slotPred shift_type a) = true
      · rw [if_pos hcond] at hf
        rw [Option.some.injEq] at hf
        rw [Bool.and_eq_true] at hcond
        rw [← hf]
        exact ⟨ha, hd, hcond.1, hcond.2⟩
      · rw [if_neg hcond] at hf
        simp at hf
  · rintro ⟨hmem, hdate, hle, hsp⟩
    refine ⟨p.2, hmem, ?_⟩
    rw [hdate]
    simp [hle, hsp]

/-! ### Helper lemmas: decimal fields round-trip -/

theorem natDigits_single {n : Nat} (h : n < 10) : natDigits n = [n] := by
  rw [natDigits_eq, if_pos h]

theorem map_val_of_digits (l : List Nat) (h : ∀ x ∈ l, x < 10) :
    (l.map digitChar).map charVal = l := by
  induction l with
  | nil => rfl
  | cons a t ih =>
    simp only [List.map_cons, List.cons.injEq]
    exact ⟨charVal_digitChar (h a (by simp)),
      ih (fun x hx => h x (by simp [hx]))⟩

theorem natChars_all_digit (n : Nat) :
    (natChars n).all Char.isDigit = true := by
  rw [List.all_eq_true]
  intro c hc
  rcases List.mem_map.mp hc with ⟨d, hd, rfl⟩
  exact isDigit_digitChar (natDigits_lt n d hd)

theorem natChars_ne_nil (n : Nat) : (natChars n).isEmpty = false := by
  unfold natChars
  rcases h : natDigits n with _ | ⟨a, t⟩
  · exact absurd h (natDigits_ne_nil n)
  · rfl

theorem natChars_no_slash (n : Nat) : ∀ c ∈ natChars n, c ≠ '/' := by
  intro c hc
  rcases List.mem_map.mp hc with ⟨d, hd, rfl⟩
  exact digitChar_ne_slash (natDigits_lt n d hd)

theorem pad2Chars_no_slash (n : Nat) : ∀ c ∈ pad2Chars n, c ≠ '/' := by
  intro c hc
  unfold pad2Chars at hc
  split at hc
  · rcases List.mem_cons.mp hc with h | h
    · subst h; decide
    · exact natChars_no_slash n c h
  · exact natChars_no_slash n c hc

theorem parseFieldY_natChars (n : Nat) : parseFieldY (natChars n) = some n := by
  unfold parseFieldY
  rw [natChars_ne_nil n]
  simp only [Bool.false_eq_true, if_false]
  rw [natChars_all_digit n]
  simp only [if_true]
  rw [natChars, map_val_of_digits _ (natDigits_lt n), parseDigits_natDigits]

theorem parseField_natChars {n : Nat} (h : n < 100) :
    parseField 2 (natChars n) = some n := by
  unfold parseField
  rw [natChars_ne_nil n]
  simp only [Bool.false_eq_true, if_false]
  have hlen : (natChars n).length ≤ 2 := by
    unfold natChars
    rw [List.length_map]
    exact natDigits_len_le2 h
  rw [natChars_all_digit n]
  simp only [hlen, decide_True, Bool.and_true, if_true, decide_eq_true_eq]
  rw [natChars, map_val_of_digits _ (natDigits_lt n), parseDigits_natDigits]

theorem parseField_pad2 {n : Nat} (h : n < 100) :
    parseField 2 (pad2Chars n) = some n := by
  unfold pad2Chars
  split
  · rename_i h10
    unfold parseField
    have hdig : natDigits n = [n] := natDigits_single h10
    simp only [natChars, hdig, List.map_cons, List.map_nil]
    have : charVal (digitChar n) = n := charVal_digitChar h10
    simp [List.all_cons, isDigit_digitChar h10, parseDigits, this,
      show charVal '0' = 0 from by decide]
  · exact parseField_natChars h

/-! ### Helper lemmas: splitting on the slash -/

theorem splitSlash_no_slash (cs : List Char) (h : ∀ c ∈ cs, c ≠ '/') :
    splitSlash cs = [cs] := by
  induction cs with
  | nil => rfl
  | cons c rest ih =>
    have hc : ¬ (c == '/') = true := by
      simpa using h c (by simp)
    show (if (c == '/') = true then [] :: splitSlash rest
      else match splitSlash rest with
        | h :: t => (c :: h) :: t
        | [] => [[c]]) = [c :: rest]
    rw [if_neg hc, ih (fun x hx => h x (by simp [hx]))]

theorem splitSlash_append (xs ys : List Char) (h : ∀ c ∈ xs, c ≠ '/') :
    splitSlash (xs ++ '/' :: ys) = xs :: splitSlash ys := by
  induction xs with
  | nil =>
    simp only [List.nil_append]
    show (if ('/' == '/') = true then [] :: splitSlash ys
      else match splitSlash ys with
        | h :: t => ('/' :: h) :: t
        | [] => [['/']]) = [] :: splitSlash ys
    rw [if_pos (by decide)]
  | cons c rest ih =>
    have hc : ¬ (c == '/') = true := by
      simpa using h c (by simp)
    simp only [List.cons_append]
    show (if (c == '/') = true then [] :: splitSlash (rest ++ '/' :: ys)
      else match splitSlash (rest ++ '/' :: ys) with
        | h :: t => (c :: h) :: t
        | [] => [[c]]) = (c :: rest) :: splitSlash ys
    rw [if_neg hc, ih (fun x hx => h x (by simp [hx]))]

/-- Formatting a valid in-`Timestamp`-range date with `%d/%m/%Y` and
re-parsing it with the same format round-trips. -/
theorem parse_dmy_fmtDMY {d : Date} (h : isValidDate d = true)
    (hb : inTimestampBounds d = true) :
    parse_dmy (fmtDMY d) = some d := by
  have hval := h
  unfold isValidDate at hval
  simp only [Bool.and_eq_true, decide_eq_true_eq] at hval
  have hday : d.day < 100 := by
    have := hval.2
    have hm : daysInMonth d.month d.year ≤ 31 := by
      unfold daysInMonth
      split
      · split <;> omega
      · split <;> omega
    omega
  have hmonth : d.month < 100 := by omega
  unfold parse_dmy fmtDMY fmtDMYChars
  rw [show (String.mk (pad2Chars d.day ++
      '/' :: (pad2Chars d.month ++ '/' :: natChars d.year))).data =
      pad2Chars d.day ++ '/' :: (pad2Chars d.month ++ '/' :: natChars d.year)
    from rfl]
  rw [splitSlash_append _ _ (pad2Chars_no_slash d.day),
    splitSlash_append _ _ (pad2Chars_no_slash d.month),
    splitSlash_no_slash _ (natChars_no_slash d.year)]
  simp only [parseField_pad2 hday, parseField_pad2 hmonth,
    parseFieldY_natChars]
  rw [if_pos (show (isValidDate ⟨d.day, d.month, d.year⟩ &&
    inTimestampBounds ⟨d.day, d.month, d.year⟩) = true from by
      rw [Bool.and_eq_true]
      exact ⟨h, hb⟩)]

/-! ### Claim theorems -/

/-- C3 (counterexample): `ask_question` is claimed to return a string on
every path, even when the `extract_date` fallback builds day 31 in a short
month.  On question `"31"` with today in June 2024, the fallback builds
day 31 / month 6 / year 2024, `datetime` raises, and the exception escapes
`ask_question` (date extraction runs outside the `try` block) — no string
is returned. -/
theorem C3_counterexample :
    ask_question "my_shift_on_date" none "31" ⟨1, 6, 2024⟩ [] =
      .error "day is out of range for month" := by rfl

/-- C3 (amended): `ask_question` returns a string whenever `extract_date`
does not raise; every handler outcome — normal or exceptional — is
rendered as a string by the dispatch `try`/`except`. -/
theorem C3_returns_string_if_extract_ok (category : String)
    (primary : Option Date) (question : String) (today : Date)
    (roster : List Row) (dq : Option String)
    (hx : extract_date primary question today = .ok dq) :
    ∃ s, ask_question category primary question today roster = .ok s := by
  unfold ask_question
  rw [hx]
  dsimp only
  cases hrh : runHandler category dq roster today with
  | none => exact ⟨_, rfl⟩
  | some r =>
    cases r with
    | ok s => exact ⟨_, rfl⟩
    | error e => exact ⟨_, rfl⟩

/-- C3 (witness for the amended theorem): a concrete run in which
extraction succeeds and a string comes back. -/
theorem C3_returns_string_if_extract_ok_witness :
    ∃ s, ask_question "next_shift" none "when am I on" ⟨1, 6, 2024⟩ [] =
      .ok s :=
  C3_returns_string_if_extract_ok "next_shift" none "when am I on"
    ⟨1, 6, 2024⟩ [] none (by rfl)

/-- C4 (counterexample): 01/01/2300 is a real calendar date with no roster
row, but it lies beyond `Timestamp.max` (2262-04-11), so `pd.to_datetime`
coerces it to `NaT` and `get_my_shift_on_date` raises the `NaT` strftime
`ValueError` instead of returning the claimed off message. -/
theorem C4_counterexample :
    isValidDate ⟨1, 1, 2300⟩ = true ∧
    parse_dmy "01/01/2300" = none ∧
    get_my_shift_on_date (some "01/01/2300") [] = .error natStrftimeErr := by
  refine ⟨by decide, by decide, by decide⟩

/-- C4 (amended): for a date string that parses within the pandas
`Timestamp` range, `get_my_shift_on_date` names exactly the slots of the
first row on that date whose value equals `WIFE_NAME` (membership in
`matchingSlots` is equivalent to slot equality with the subject name),
with the corresponding off message when no slot matches or no row exists;
for an unparseable or out-of-range date string the coerced `NaT` makes the
handler raise the strftime error instead. -/
theorem C4_my_shift_exact (roster : List Row) (D : String) :
    (parse_dmy D = none →
      get_my_shift_on_date (some D) roster = .error natStrftimeErr) ∧
    (∀ d, parse_dmy D = some d →
      (findRowByDate roster d = none →
        get_my_shift_on_date (some D) roster =
          .ok (myShiftNoRowMsg (fmtLong d))) ∧
      (∀ r, findRowByDate roster d = some r →
        (∀ c, c ∈ matchingSlots r ↔
          (c ∈ shift_columns ∧ getSlot r c = WIFE_NAME)) ∧
        (matchingSlots r = [] →
          get_my_shift_on_date (some D) roster =
            .ok (myShiftOffMsg (fmtLong d))) ∧
        (matchingSlots r ≠ [] →
          get_my_shift_on_date (some D) roster =
            .ok (myShiftWorkMsg (fmtLong d)
              (joinSep ", " ((matchingSlots r).map slotName)))))) := by
  constructor
  · intro hp
    have hbind : (some D).bind parse_dmy = none := hp
    unfold get_my_shift_on_date
    rw [hbind]
  · intro d hp
    have hbind : (some D).bind parse_dmy = some d := hp
    constructor
    · intro hr
      unfold get_my_shift_on_date
      rw [hbind]
      dsimp only
      rw [hr]
    · intro r hr
      refine ⟨?_, ?_, ?_⟩
      · intro c
        simp [matchingSlots, List.mem_filter]
      · intro hempty
        unfold get_my_shift_on_date
        rw [hbind]
        dsimp only
        rw [hr]
        dsimp only
        rw [show (matchingSlots r).isEmpty = true by rw [hempty]; rfl]
        rfl
      · intro hne
        unfold get_my_shift_on_date
        rw [hbind]
        dsimp only
        rw [hr]
        dsimp only
        rw [show (matchingSlots r).isEmpty = false by
          cases h : matchingSlots r with
          | nil => exact absurd h hne
          | cons a t => rfl]
        rfl

/-- C4 (witness for the amended theorem): a roster with one row on
10/10/2023 where only the Day slot holds the subject name. -/
theorem C4_my_shift_exact_witness :
    (Slot.day ∈ matchingSlots
        ⟨some ⟨10, 10, 2023⟩, "Karunya Subramaniyan", "Alice", "", ""⟩ ↔
      (Slot.day ∈ shift_columns ∧
        getSlot ⟨some ⟨10, 10, 2023⟩, "Karunya Subramaniyan", "Alice", "",
          ""⟩ Slot.day = WIFE_NAME)) ∧
    get_my_shift_on_date (some "10/10/2023")
      [⟨some ⟨10, 10, 2023⟩, "Karunya Subramaniyan", "Alice", "", ""⟩] =
      .ok (myShiftWorkMsg (fmtLong ⟨10, 10, 2023⟩)
        (joinSep ", " ((matchingSlots
          ⟨some ⟨10, 10, 2023⟩, "Karunya Subramaniyan", "Alice", "",
            ""⟩).map slotName))) := by
  have h := (C4_my_shift_exact
    [⟨some ⟨10, 10, 2023⟩, "Karunya Subramaniyan", "Alice", "", ""⟩]
    "10/10/2023").2 ⟨10, 10, 2023⟩ (by rfl)
  have h2 := h.2 ⟨some ⟨10, 10, 2023⟩, "Karunya Subramaniyan", "Alice", "",
    ""⟩ (by rfl)
  exact ⟨h2.1 Slot.day, h2.2.2 (by decide)⟩

/-- C5: when the classified label has a handler and that handler raises,
`ask_question` catches the exception and returns the generic apologetic
message embedding the raw error text. -/
theorem C5_handler_error_caught (category : String) (primary : Option Date)
    (question : String) (today : Date) (roster : List Row)
    (dq : Option String) (e : String)
    (hx : extract_date primary question today = .ok dq)
    (hh : runHandler category dq roster today = some (.error e)) :
    ask_question category primary question today roster =
      .ok (oopsMsg e) := by
  unfold ask_question
  rw [hx]
  dsimp only
  rw [hh]

/-- C5 (witness): `my_shift_on_date` with no extractable date raises the
`NaT` strftime error, and `ask_question` renders the generic message. -/
theorem C5_handler_error_caught_witness :
    ask_question "my_shift_on_date" none "hello" ⟨1, 6, 2024⟩ [] =
      .ok (oopsMsg natStrftimeErr) :=
  C5_handler_error_caught "my_shift_on_date" none "hello" ⟨1, 6, 2024⟩ []
    none natStrftimeErr (by rfl) (by rfl)

/-- C8: a classification label outside the seven-entry handler map — in
particular `colleagues_on_shift` and `shift_run_end` — makes
`ask_question` return the fixed clarification message, for every extracted
date value. -/
theorem C8_unknown_label_clarifies (category : String)
    (primary : Option Date) (question : String) (today : Date)
    (roster : List Row) (dq : Option String)
    (hc : category ∉ categoryKeys)
    (hx : extract_date primary question today = .ok dq) :
    ask_question category primary question today roster =
      .ok clarificationMsg := by
  simp only [categoryKeys, List.mem_cons, List.not_mem_nil, or_false,
    not_or] at hc
  obtain ⟨h1, h2, h3, h4, h5, h6, h7⟩ := hc
  unfold ask_question
  rw [hx]
  dsimp only
  have hrh : runHandler category dq roster today = none := by
    unfold runHandler
    simp [beq_iff_eq, h1, h2, h3, h4, h5, h6, h7]
  rw [hrh]

/-- C8 (witness): the vocabulary label `colleagues_on_shift` has no
handler and yields the clarification message. -/
theorem C8_unknown_label_clarifies_witness :
    ask_question "colleagues_on_shift" none "who is on with me"
      ⟨1, 6, 2024⟩ [] = .ok clarificationMsg :=
  C8_unknown_label_clarifies "colleagues_on_shift" none "who is on with me"
    ⟨1, 6, 2024⟩ [] none (by decide) (by rfl)

/-- C9: the roster store is read-only after load: `ask_question` and each
query handler leave the roster component of the process state exactly as
they found it. -/
theorem C9_roster_immutable :
    ∀ (category : String) (primary : Option Date) (question : String)
      (today : Date) (st : AppState) (shift_type : Option Slot)
      (dq : Option String),
      (ask_question_st category primary question today st).2.roster =
        st.roster ∧
      (get_next_shift_st shift_type today st).2.roster = st.roster ∧
      (get_my_shift_on_date_st dq st).2.roster = st.roster ∧
      (get_colleagues_on_date_st dq st).2.roster = st.roster := by
  intros
  exact ⟨rfl, rfl, rfl, rfl⟩

/-- C1 (counterexample): the claim says slot-specific matching uses
equality with the subject name.  On a roster whose only row has
`Day = "Karunya Subramaniyan 2"` — a strict superstring, never equal —
`get_next_shift("Day")` still returns that row's message instead of the
required "no upcoming" message, because the code uses
`.str.contains`. -/
theorem C1_counterexample :
    getSlot ⟨some ⟨5, 1, 2024⟩, "Karunya Subramaniyan 2", "", "", ""⟩
        Slot.day ≠ WIFE_NAME ∧
    get_next_shift (some Slot.day)
      [⟨some ⟨5, 1, 2024⟩, "Karunya Subramaniyan 2", "", "", ""⟩]
      ⟨1, 1, 2024⟩ =
      nextShiftMsg (some Slot.day) ⟨5, 1, 2024⟩
        ⟨some ⟨5, 1, 2024⟩, "Karunya Subramaniyan 2", "", "", ""⟩ ∧
    get_next_shift (some Slot.day)
      [⟨some ⟨5, 1, 2024⟩, "Karunya Subramaniyan 2", "", "", ""⟩]
      ⟨1, 1, 2024⟩ ≠ noUpcomingMsg (some Slot.day) := by
  refine ⟨by decide, by decide, by decide⟩

/-- C1 (amended): `get_next_shift` returns the message of an earliest
(date-minimal) row among rows with date ≥ today that match — where a named
slot matches by substring containment of the subject name
(`.str.contains`), and the any-slot case matches by exact equality on some
slot — and the "no upcoming" message exactly when no row matches. -/
theorem C1_next_shift_spec (shift_type : Option Slot) (roster : List Row)
    (today : Date) :
    (∀ p : Date × Row, p ∈ futureShifts shift_type roster today ↔
      (p.2 ∈ roster ∧ p.2.date = some p.1 ∧ dateLE today p.1 = true ∧
       slotPred shift_type p.2 = true)) ∧
    (futureShifts shift_type roster today = [] →
      get_next_shift shift_type roster today = noUpcomingMsg shift_type) ∧
    (futureShifts shift_type roster today ≠ [] →
      ∃ x, minByDate (futureShifts shift_type roster today) = some x) ∧
    (∀ d r, minByDate (futureShifts shift_type roster today) = some (d, r) →
      (d, r) ∈ futureShifts shift_type roster today ∧
      (∀ q ∈ futureShifts shift_type roster today, dateLE d q.1 = true) ∧
      get_next_shift shift_type roster today =
        nextShiftMsg shift_type d r) := by
  refine ⟨fun p => mem_futureShifts, ?_, ?_, ?_⟩
  · intro h
    unfold get_next_shift
    rw [show minByDate (futureShifts shift_type roster today) = none from
      (minByDate_none_iff _).mpr h]
  · intro h
    cases hm : minByDate (futureShifts shift_type roster today) with
    | none => exact absurd ((minByDate_none_iff _).mp hm) h
    | some x => exact ⟨x, rfl⟩
  · intro d r h
    obtain ⟨h1, h2⟩ := minByDate_spec h
    refine ⟨h1, h2, ?_⟩
    unfold get_next_shift
    rw [h]

/-- C1 (witness for the amended theorem): with one future row whose Day
slot equals the subject name exactly, the earliest-row message comes
back. -/
theorem C1_next_shift_spec_witness :
    get_next_shift (some Slot.day)
      [⟨some ⟨5, 1, 2024⟩, "Karunya Subramaniyan", "", "", ""⟩]
      ⟨1, 1, 2024⟩ =
      nextShiftMsg (some Slot.day) ⟨5, 1, 2024⟩
        ⟨some ⟨5, 1, 2024⟩, "Karunya Subramaniyan", "", "", ""⟩ :=
  ((C1_next_shift_spec (some Slot.day)
    [⟨some ⟨5, 1, 2024⟩, "Karunya Subramaniyan", "", "", ""⟩]
    ⟨1, 1, 2024⟩).2.2.2 ⟨5, 1, 2024⟩
    ⟨some ⟨5, 1, 2024⟩, "Karunya Subramaniyan", "", "", ""⟩
    (by decide)).2.2

/-- C2 (counterexample): the claim says a pair whose slot value is the
empty string never appears.  For the row {Day: "A", Night: ""} the Night
pair (with empty name) is in the listing and in the rendered message,
because every cell is a string after load and `pd.notna` holds of every
string. -/
theorem C2_counterexample :
    getSlot ⟨some ⟨10, 10, 2023⟩, "A", "", "", ""⟩ Slot.night = "" ∧
    (Slot.night, "") ∈
      colleaguePairs ⟨some ⟨10, 10, 2023⟩, "A", "", "", ""⟩ ∧
    get_colleagues_on_date (some "10/10/2023")
      [⟨some ⟨10, 10, 2023⟩, "A", "", "", ""⟩] =
      .ok ("Here’s the shift schedule for **Tuesday, 10 October 2023**:\n\n  - Day: A\n  - Night: \n  - Day on call: \n  - Night on call: \n\nHope this helps! 😊") := by
  refine ⟨rfl, by decide, by decide⟩

/-- C2 (amended): for a date string that parses within the pandas
`Timestamp` range and has a row, `get_colleagues_on_date` lists all four
slot pairs — the `pd.notna` guard never rejects a string cell, so
empty-valued pairs are included too — and returns the no-shifts-found
message when no row matches; for an unparseable or out-of-range date
string the coerced `NaT` makes the handler raise the strftime error. -/
theorem C2_colleagues_all_pairs (roster : List Row) (D : String) :
    (parse_dmy D = none →
      get_colleagues_on_date (some D) roster = .error natStrftimeErr) ∧
    (∀ d, parse_dmy D = some d →
      (findRowByDate roster d = none →
        get_colleagues_on_date (some D) roster =
          .ok (colleaguesNoRowMsg (fmtLong d))) ∧
      (∀ r, findRowByDate roster d = some r →
        (∀ c, c ∈ shift_columns → (c, getSlot r c) ∈ colleaguePairs r) ∧
        get_colleagues_on_date (some D) roster =
          .ok (colleaguesMsg (fmtLong d)
            (joinSep "\n" ((colleaguePairs r).map pairLine))))) := by
  constructor
  · intro hp
    have hbind : (some D).bind parse_dmy = none := hp
    unfold get_colleagues_on_date
    rw [hbind]
  · intro d hp
    have hbind : (some D).bind parse_dmy = some d := hp
    constructor
    · intro hr
      unfold get_colleagues_on_date
      rw [hbind]
      dsimp only
      rw [hr]
    · intro r hr
      constructor
      · intro c hc
        unfold colleaguePairs
        rw [List.mem_filterMap]
        exact ⟨c, hc, by simp [pdNotNaStr]⟩
      · unfold get_colleagues_on_date
        rw [hbind]
        dsimp only
        rw [hr]

/-- C2 (witness for the amended theorem): a row with an empty Day-on-call
cell still contributes its pair, and the message renders all four
pairs. -/
theorem C2_colleagues_all_pairs_witness :
    ((Slot.dayOnCall, "") ∈
      colleaguePairs ⟨some ⟨5, 1, 2024⟩, "A", "B", "", "D"⟩) ∧
    get_colleagues_on_date (some "05/01/2024")
      [⟨some ⟨5, 1, 2024⟩, "A", "B", "", "D"⟩] =
      .ok (colleaguesMsg (fmtLong ⟨5, 1, 2024⟩)
        (joinSep "\n" ((colleaguePairs
          ⟨some ⟨5, 1, 2024⟩, "A", "B", "", "D"⟩).map pairLine))) := by
  have h := ((C2_colleagues_all_pairs
    [⟨some ⟨5, 1, 2024⟩, "A", "B", "", "D"⟩] "05/01/2024").2 ⟨5, 1, 2024⟩
    (by rfl)).2 ⟨some ⟨5, 1, 2024⟩, "A", "B", "", "D"⟩ (by rfl)
  exact ⟨h.1 Slot.dayOnCall (by decide), h.2⟩

/-- C6 (counterexample): the claim says a found day number always yields
the date built from it.  On question `"31"` with current month June 2024
the fallback finds day 31 and month June, but `datetime(2024, 6, 31)`
raises instead of producing a date. -/
theorem C6_counterexample :
    findDayNum "31" = some 31 ∧ findMonthNum "31" = none ∧
    extract_date none "31" ⟨1, 6, 2024⟩ =
      .error "day is out of range for month" := by
  refine ⟨by decide, by decide, by decide⟩

/-- C6 (amended): when the primary parse fails, the fallback returns
`none` when no 1-2 digit day number occurs; when a day number is found,
it returns the date built from that day, the month named in the text or
else the current month, and the current year — provided that combination
is a valid calendar date; otherwise it raises. -/
theorem C6_fallback_spec (question : String) (today : Date) :
    (findDayNum question = none →
      extract_date none question today = .ok none) ∧
    (∀ day, findDayNum question = some day →
      (isValidDate ⟨day, (findMonthNum question).getD today.month,
          today.year⟩ = true →
        extract_date none question today =
          .ok (some (fmtDMY ⟨day,
            (findMonthNum question).getD today.month, today.year⟩))) ∧
      (isValidDate ⟨day, (findMonthNum question).getD today.month,
          today.year⟩ = false →
        extract_date none question today =
          .error "day is out of range for month")) := by
  constructor
  · intro h
    unfold extract_date
    rw [h]
  · intro day h
    constructor
    · intro hv
      unfold extract_date
      rw [h]
      dsimp only
      rw [if_pos hv]
    · intro hv
      unfold extract_date
      rw [h]
      dsimp only
      rw [if_neg (by simp [hv])]

/-- C6 (witness for the amended theorem): "shift on the 5th" with current
month June and current year 2024 yields 05/06/2024. -/
theorem C6_fallback_spec_witness :
    extract_date none "shift on the 5th" ⟨15, 6, 2024⟩ =
      .ok (some (fmtDMY ⟨5, 6, 2024⟩)) :=
  ((C6_fallback_spec "shift on the 5th" ⟨15, 6, 2024⟩).2 5
    (by decide)).1 (by decide)

/-- C7 (counterexample): the claim says the year of an extracted date is
never taken from the text.  On "shift on 10/10/2023" the primary
`dateparser` parse succeeds with the textual year 2023 (the behaviour the
spec itself documents for this input), and `extract_date` returns
10/10/2023, whose year differs from the current year 2024. -/
theorem C7_counterexample :
    extract_date (some ⟨10, 10, 2023⟩) "shift on 10/10/2023" ⟨1, 6, 2024⟩ =
      .ok (some "10/10/2023") ∧
    parse_dmy "10/10/2023" = some ⟨10, 10, 2023⟩ ∧
    (⟨10, 10, 2023⟩ : Date).year ≠ (⟨1, 6, 2024⟩ : Date).year := by
  refine ⟨by decide, by decide, by decide⟩

/-- C7 (amended): the regex fallback never takes the year from the text:
any date it produces is formatted with the current year.  (The primary
heuristic parse can take the year from the text.) -/
theorem C7_fallback_year_is_current (question : String) (today : Date)
    (s : String)
    (h : extract_date none question today = .ok (some s)) :
    ∃ day m, s = fmtDMY ⟨day, m, today.year⟩ := by
  unfold extract_date at h
  cases hd : findDayNum question with
  | none =>
    rw [hd] at h
    simp at h
  | some day =>
    rw [hd] at h
    dsimp only at h
    by_cases hv : isValidDate ⟨day,
        (findMonthNum question).getD today.month, today.year⟩ = true
    · rw [if_pos hv] at h
      rw [Except.ok.injEq, Option.some.injEq] at h
      exact ⟨day, (findMonthNum question).getD today.month, h.symm⟩
    · rw [if_neg hv] at h
      simp at h

/-- C7 (witness for the amended theorem): the 05/06/2024 extraction
carries the current year 2024. -/
theorem C7_fallback_year_is_current_witness :
    ∃ day m, ("05/06/2024" : String) =
      fmtDMY ⟨day, m, (⟨15, 6, 2024⟩ : Date).year⟩ :=
  C7_fallback_year_is_current "shift on the 5th" ⟨15, 6, 2024⟩ "05/06/2024"
    (by decide)

/-- C10 (counterexample): the primary dateparser parse can return a real
`datetime` beyond `Timestamp.max` — here 2300-01-01 — and `extract_date`
then emits "01/01/2300", which the handlers' `pd.to_datetime` coerces to
`NaT`: the extracted date is NOT accepted by the date-based handlers. -/
theorem C10_counterexample :
    extract_date (some ⟨1, 1, 2300⟩) "who works on 1 January 2300"
      ⟨1, 6, 2024⟩ = .ok (some "01/01/2300") ∧
    isValidDate ⟨1, 1, 2300⟩ = true ∧
    parse_dmy "01/01/2300" = none ∧
    get_colleagues_on_date (some "01/01/2300") [] =
      .error natStrftimeErr := by
  refine ⟨by decide, by decide, by decide, by decide⟩

/-- C10 (amended): a date string produced by `extract_date` re-parses
under the handlers' `%d/%m/%Y` format to the same valid calendar date —
is accepted by the date-based handlers — provided it lies in the pandas
`Timestamp` range: when the dateparser oracle returns an in-range datetime
and the current year lies strictly inside the range (as every actual run
year does), the round-trip always holds.  The primary parse can escape the
range, as `C10_counterexample` shows. -/
theorem C10_extract_roundtrip (primary : Option Date) (question : String)
    (today : Date) (s : String)
    (hp : ∀ p, primary = some p →
      isValidDate p = true ∧ inTimestampBounds p = true)
    (hy : 1678 ≤ today.year ∧ today.year ≤ 2261)
    (h : extract_date primary question today = .ok (some s)) :
    ∃ d : Date, parse_dmy s = some d ∧ fmtDMY d = s ∧
      isValidDate d = true := by
  cases primary with
  | some p =>
    obtain ⟨hvp, hbp⟩ := hp p rfl
    unfold extract_date at h
    rw [Except.ok.injEq, Option.some.injEq] at h
    exact ⟨p, by rw [← h]; exact parse_dmy_fmtDMY hvp hbp, h, hvp⟩
  | none =>
    unfold extract_date at h
    cases hd : findDayNum question with
    | none =>
      rw [hd] at h
      simp at h
    | some day =>
      rw [hd] at h
      dsimp only at h
      by_cases hv : isValidDate ⟨day,
          (findMonthNum question).getD today.month, today.year⟩ = true
      · rw [if_pos hv] at h
        rw [Except.ok.injEq, Option.some.injEq] at h
        have hb : inTimestampBounds ⟨day,
            (findMonthNum question).getD today.month, today.year⟩ =
            true := by
          unfold inTimestampBounds
          rw [Bool.and_eq_true, dateLE_iff, dateLE_iff]
          dsimp only
          omega
        exact ⟨_, by rw [← h]; exact parse_dmy_fmtDMY hv hb, h, hv⟩
      · rw [if_neg hv] at h
        simp at h

/-- C10 (witness for the amended theorem): the concrete extraction
05/06/2024 round-trips. -/
theorem C10_extract_roundtrip_witness :
    ∃ d : Date, parse_dmy "05/06/2024" = some d ∧
      fmtDMY d = "05/06/2024" ∧ isValidDate d = true :=
  C10_extract_roundtrip none "shift on the 5th" ⟨15, 6, 2024⟩ "05/06/2024"
    (fun p hp => nomatch hp) (by decide) (by decide)

end Rosterbot
